import Mathlib

/-!
Shallow embedding of the `aws_parameter_update` crate (src/lib.rs,
src/parameter.rs).  The SSM client is an external collaborator and is
modelled as an oracle: a pair of response functions for the two store
operations.  Logging has no observable effect on data flow and is not
modelled; the store calls a run issues are collected into explicit traces
so that claims counting fetches and upserts can be stated.
-/

namespace AwsParameterUpdate

/-- `std::option::NoneError`, the unit error produced by the `?` operator on
`Option` under the old `try_trait` feature. -/
inductive NoneError where
  | noneError
  deriving Repr, DecidableEq

/-- `rusoto_ssm::GetParameterRequest` (the fields used by the crate). -/
structure GetParameterRequest where
  name : String
  with_decryption : Option Bool
  deriving Repr, DecidableEq

/-- `rusoto_ssm::Tag`. -/
structure SsmParamTag where
  key : String
  value : String
  deriving Repr, DecidableEq

/-- `rusoto_ssm::PutParameterRequest` with every field the crate sets. -/
structure PutParameterRequest where
  name : String
  value : String
  description : Option String
  type_ : Option String
  overwrite : Option Bool
  allowed_pattern : Option String
  key_id : Option String
  policies : Option String
  tags : Option (List SsmParamTag)
  tier : Option String
  data_type : Option String
  deriving Repr, DecidableEq

/-- The nested `rusoto_ssm::Parameter` record inside a get-parameter
response; only its `value` field is read by the crate. -/
structure ParameterRecord where
  value : Option String
  deriving Repr, DecidableEq

/-- `rusoto_ssm::GetParameterResult`. -/
structure GetParameterResult where
  parameter : Option ParameterRecord
  deriving Repr, DecidableEq

/-- `rusoto_ssm::PutParameterResult`. -/
structure PutParameterResult where
  tier : Option String
  version : Option Int
  deriving Repr, DecidableEq

/-- `rusoto_ssm::GetParameterError`, the service-level errors of
get-parameter; `parameterNotFound` is the name-does-not-exist case. -/
inductive GetParameterError where
  | internalServerError (msg : String)
  | invalidKeyId (msg : String)
  | parameterNotFound (msg : String)
  | parameterVersionNotFound (msg : String)
  deriving Repr, DecidableEq

/-- `rusoto_ssm::PutParameterError` (a representative subset of the
service-level errors of put-parameter). -/
inductive PutParameterError where
  | internalServerError (msg : String)
  | parameterLimitExceeded (msg : String)
  | parameterAlreadyExists (msg : String)
  | invalidKeyId (msg : String)
  deriving Repr, DecidableEq

/-- `rusoto_core::RusotoError<E>`: a service error wrapped in `service`, or
one of the transport-level failures. -/
inductive RusotoError (E : Type) where
  | service (e : E)
  | httpDispatch (msg : String)
  | credentials (msg : String)
  | validation (msg : String)
  | parseError (msg : String)
  | unknown (msg : String)
  | blocking
  deriving Repr, DecidableEq

/-- `rusoto_ssm::SsmClient` modelled as an oracle: the response it gives to
each fetch and each upsert request. -/
structure SsmClient where
  get_parameter : GetParameterRequest → Except (RusotoError GetParameterError) GetParameterResult
  put_parameter : PutParameterRequest → Except (RusotoError PutParameterError) PutParameterResult

/-- `Parameter` (src/parameter.rs): one configuration entry. -/
structure Parameter where
  name : String
  value : String
  description : String
  is_secure : Bool
  deriving Repr, DecidableEq

/-- `Parameter::new` (src/parameter.rs). -/
def Parameter.new (name : String) (value : String) (description : String)
    (is_secure : Bool) : Parameter :=
  { name := name, value := value, description := description, is_secure := is_secure }

/-- `Parameter::to_get_parameter_request` (src/parameter.rs). -/
def Parameter.to_get_parameter_request (p : Parameter) : GetParameterRequest :=
  { name := p.name
  , with_decryption := some true }

/-- `Parameter::to_put_parameter_request` (src/parameter.rs). -/
def Parameter.to_put_parameter_request (p : Parameter) : PutParameterRequest :=
  { name := p.name
  , value := p.value
  , description := some p.description
  , type_ := if p.is_secure then some "SecureString" else some "String"
  , overwrite := some true
  , allowed_pattern := none
  , key_id := none
  , policies := none
  , tags := none
  , tier := none
  , data_type := none }

/-- `Parameter::needs_updating` (src/parameter.rs).  On a successful fetch
the nested optional fields are extracted with the `?` operator (failure is
`NoneError`); on any fetch error — the match on the error kind only picks a
log message — the result is `Err(NoneError)`. -/
def Parameter.needs_updating (p : Parameter) (client : SsmClient) :
    Except NoneError Bool :=
  match client.get_parameter p.to_get_parameter_request with
  | Except.ok parameter_result =>
    match parameter_result.parameter with
    | none => Except.error NoneError.noneError
    | some param =>
      match param.value with
      | none => Except.error NoneError.noneError
      | some existing_value => Except.ok (p.value != existing_value)
  | Except.error error =>
    match error with
    | RusotoError.credentials _ => Except.error NoneError.noneError
    | _ => Except.error NoneError.noneError

instance instDecEqExcept {ε α : Type} [DecidableEq ε] [DecidableEq α] :
    DecidableEq (Except ε α) := fun x y =>
  match x, y with
  | Except.ok a, Except.ok b =>
    if h : a = b then isTrue (by rw [h])
    else isFalse (by intro hc; cases hc; exact h rfl)
  | Except.ok _, Except.error _ => isFalse (by intro hc; cases hc)
  | Except.error _, Except.ok _ => isFalse (by intro hc; cases hc)
  | Except.error a, Except.error b =>
    if h : a = b then isTrue (by rw [h])
    else isFalse (by intro hc; cases hc; exact h rfl)

/-- The observable effect of one `Parameter::update` call: its returned
`Result` together with the store calls it issued. -/
structure UpdateResult where
  outcome : Except NoneError String
  gets : List GetParameterRequest
  puts : List PutParameterRequest
  deriving Repr, DecidableEq

/-- `Parameter::update` (src/parameter.rs).  `needs_updating` always issues
exactly one fetch; when it returns `Ok(true)` one upsert is issued, and the
upsert's own result is only logged — both arms fall through to
`Ok(self.name.clone())`. -/
def Parameter.update (p : Parameter) (client : SsmClient) : UpdateResult :=
  match p.needs_updating client with
  | Except.error e =>
    { outcome := Except.error e
    , gets := [p.to_get_parameter_request]
    , puts := [] }
  | Except.ok true =>
    let parameter_request := p.to_put_parameter_request
    match client.put_parameter parameter_request with
    | Except.ok _parameter_result =>
      { outcome := Except.ok p.name
      , gets := [p.to_get_parameter_request]
      , puts := [parameter_request] }
    | Except.error _error =>
      { outcome := Except.ok p.name
      , gets := [p.to_get_parameter_request]
      , puts := [parameter_request] }
  | Except.ok false =>
    { outcome := Except.ok p.name
    , gets := [p.to_get_parameter_request]
    , puts := [] }

/-- The observable effect of one batch run: the overall returned `Result`,
the per-entry outcomes in input order, and the store-call traces. -/
structure UpdateRun where
  result : Except String Unit
  outcomes : List (Except NoneError String)
  gets : List GetParameterRequest
  puts : List PutParameterRequest
  deriving Repr, DecidableEq

/-- `update_parameters` (src/lib.rs): each entry is processed in sequence by
`Parameter::update`; the per-entry result is only logged, and the function
always returns `Ok(())`. -/
def update_parameters (parameters : List Parameter) (client : SsmClient) :
    UpdateRun :=
  { result := Except.ok ()
  , outcomes := parameters.map (fun parameter => (parameter.update client).outcome)
  , gets := List.flatten (parameters.map (fun parameter => (parameter.update client).gets))
  , puts := List.flatten (parameters.map (fun parameter => (parameter.update client).puts)) }

/-- `update_parameter` (src/lib.rs). -/
def update_parameter (name : String) (value : String) (description : String)
    (is_secure : Bool) (client : SsmClient) : UpdateRun :=
  update_parameters [Parameter.new name value description is_secure] client

/-- `yaml_rust::Yaml`, the generic YAML value the external loader
produces (the variants relevant to this crate). -/
inductive Yaml where
  | string (s : String)
  | boolean (b : Bool)
  | integer (i : Int)
  | array (elems : List Yaml)
  | hash (entries : List (Yaml × Yaml))
  | null
  | badValue

/-- Whether a YAML hash key equals the probe key `Yaml::String(key)` used by
`yaml_rust`'s `Index<&str>` implementation. -/
def Yaml.isStrKey (k : Yaml) (key : String) : Bool :=
  match k with
  | Yaml.string s => s == key
  | _ => false

/-- Hash lookup by string key (first matching entry). -/
def Yaml.lookupStr (key : String) : List (Yaml × Yaml) → Option Yaml
  | [] => none
  | (k, v) :: rest =>
    if k.isStrKey key then some v else Yaml.lookupStr key rest

/-- `yaml["key"]` (`yaml_rust`'s `Index<&str>`): the hash entry under the
key, or `BadValue` when the value is not a hash or the key is absent. -/
def Yaml.idx (y : Yaml) (key : String) : Yaml :=
  match y with
  | Yaml.hash entries =>
    match Yaml.lookupStr key entries with
    | some v => v
    | none => Yaml.badValue
  | _ => Yaml.badValue

/-- `Yaml::as_str`: `Some` only for a string value. -/
def Yaml.as_str : Yaml → Option String
  | Yaml.string s => some s
  | _ => none

/-- `Yaml::as_bool`: `Some` only for a boolean value. -/
def Yaml.as_bool : Yaml → Option Bool
  | Yaml.boolean b => some b
  | _ => none

/-- `Yaml::into_iter`: iterates the elements of an array, and is empty for
every other variant. -/
def Yaml.into_iter : Yaml → List Yaml
  | Yaml.array elems => elems
  | _ => []

/-- The per-mapping body of the closure in `read_parameters_yaml`
(src/lib.rs): each required field is fetched and unwrapped with
`.expect(...)`; a panic is modelled as `Except.error` carrying the panic
message.  The fields are evaluated in the source's argument order. -/
def parse_parameter (param : Yaml) : Except String Parameter :=
  match (param.idx "name").as_str with
  | none => Except.error "name missing"
  | some name =>
    match (param.idx "value").as_str with
    | none => Except.error "value missing"
    | some value =>
      match (param.idx "description").as_str with
      | none => Except.error "description missing"
      | some description =>
        match (param.idx "is_secure").as_bool with
        | none => Except.error "is_secure missing"
        | some is_secure =>
          Except.ok (Parameter.new name value description is_secure)

/-- Driving the flattened iterator through `collect`: elements are parsed
in order and the first `expect` failure aborts the whole collection. -/
def parse_parameters : List Yaml → Except String (List Parameter)
  | [] => Except.ok []
  | y :: rest =>
    match parse_parameter y with
    | Except.error e => Except.error e
    | Except.ok p =>
      match parse_parameters rest with
      | Except.error e => Except.error e
      | Except.ok ps => Except.ok (p :: ps)

/-- `read_parameters_yaml` (src/lib.rs).  File IO and
`YamlLoader::load_from_str` are external; their combined result — either a
load failure or the list of YAML documents in the file — is the input.  The
documents are iterated, each document's elements are parsed into
`Parameter`s, and the per-document sequences are flattened in document
order. -/
def read_parameters_yaml (load_result : Except String (List Yaml)) :
    Except String (List Parameter) :=
  match load_result with
  | Except.error e => Except.error e
  | Except.ok docs =>
    parse_parameters (List.flatten (docs.map Yaml.into_iter))

/-- `update_from_file` (src/lib.rs): parse first, then run the batch; a
parse failure aborts before any store interaction, so both store-call
traces are empty. -/
def update_from_file (load_result : Except String (List Yaml))
    (client : SsmClient) : UpdateRun :=
  match read_parameters_yaml load_result with
  | Except.error e =>
    { result := Except.error e, outcomes := [], gets := [], puts := [] }
  | Except.ok parameters_from_yaml =>
    update_parameters parameters_from_yaml client

/-! Concrete fixtures used by witnesses and counterexamples. -/

/-- A sample entry used as concrete input below. -/
def sampleParameter : Parameter :=
  Parameter.new "sample_name" "sample_value" "sample_description" false

/-- A successful upsert response. -/
def samplePutResult : PutParameterResult := { tier := none, version := some 1 }

/-- A client whose store does not contain the requested name: every fetch
fails with the name-not-found service error. -/
def notFoundClient : SsmClient :=
  { get_parameter := fun _ =>
      Except.error
        (RusotoError.service (GetParameterError.parameterNotFound "parameter not found"))
  , put_parameter := fun _ => Except.ok samplePutResult }

/-- A client already holding the same value as the sample entry. -/
def matchingClient : SsmClient :=
  { get_parameter := fun _ =>
      Except.ok { parameter := some { value := some "sample_value" } }
  , put_parameter := fun _ => Except.ok samplePutResult }

/-- A client holding a different value, accepting upserts. -/
def staleClient : SsmClient :=
  { get_parameter := fun _ =>
      Except.ok { parameter := some { value := some "old_value" } }
  , put_parameter := fun _ => Except.ok samplePutResult }

/-- A client holding a different value whose upsert is rejected. -/
def rejectingClient : SsmClient :=
  { get_parameter := fun _ =>
      Except.ok { parameter := some { value := some "old_value" } }
  , put_parameter := fun _ =>
      Except.error
        (RusotoError.service (PutParameterError.internalServerError "write rejected")) }

/-- A client whose fetch fails with a credentials (transport-level) error. -/
def credentialsFailClient : SsmClient :=
  { get_parameter := fun _ => Except.error (RusotoError.credentials "no credentials")
  , put_parameter := fun _ => Except.ok samplePutResult }

/-- A client whose fetch succeeds but whose response lacks the nested
parameter record. -/
def emptyResponseClient : SsmClient :=
  { get_parameter := fun _ => Except.ok { parameter := none }
  , put_parameter := fun _ => Except.ok samplePutResult }

/-- The spec's malformed-input scenario: a mapping with name, value and
description but no is_secure field. -/
def missingFieldMapping : Yaml :=
  Yaml.hash
    [ (Yaml.string "name", Yaml.string "x")
    , (Yaml.string "value", Yaml.string "y")
    , (Yaml.string "description", Yaml.string "z") ]

/-- A one-document YAML input containing only the malformed mapping. -/
def missingFieldDocs : List Yaml := [Yaml.array [missingFieldMapping]]

/-- A complete mapping for the first document of a multi-document input. -/
def firstDocMapping : Yaml :=
  Yaml.hash
    [ (Yaml.string "name", Yaml.string "first_name")
    , (Yaml.string "value", Yaml.string "first_value")
    , (Yaml.string "description", Yaml.string "first_description")
    , (Yaml.string "is_secure", Yaml.boolean true) ]

/-- A complete mapping for the second document of a multi-document input. -/
def secondDocMapping : Yaml :=
  Yaml.hash
    [ (Yaml.string "name", Yaml.string "second_name")
    , (Yaml.string "value", Yaml.string "second_value")
    , (Yaml.string "description", Yaml.string "second_description")
    , (Yaml.string "is_secure", Yaml.boolean false) ]

/-! Theorems settling the claims. -/

/-- Claim C5 (confirmed): for every Entry, regardless of its secure flag,
the fetch-by-name request is issued with decryption enabled. -/
theorem get_request_always_decrypts (p : Parameter) :
    (p.to_get_parameter_request).with_decryption = some true := rfl

/-- Claim C6 (confirmed): the upsert request built from an Entry has storage
type SecureString exactly when the secure flag is true and String when it is
false, so reading the type flag back recovers the flag. -/
theorem put_request_type_round_trips (p : Parameter) :
    (p.to_put_parameter_request).type_ =
      (if p.is_secure then some "SecureString" else some "String")
    ∧ (((p.to_put_parameter_request).type_ = some "SecureString") ↔ p.is_secure = true) := by
  cases hs : p.is_secure <;> simp [Parameter.to_put_parameter_request, hs]

/-- Claim C7 (confirmed): the batch call always returns success, and the
empty batch is a no-op producing no outcomes and no store calls. -/
theorem update_parameters_never_fails (parameters : List Parameter) (client : SsmClient) :
    (update_parameters parameters client).result = Except.ok ()
    ∧ update_parameters [] client =
        { result := Except.ok (), outcomes := [], gets := [], puts := [] } :=
  ⟨rfl, rfl⟩

/-- Claim C1 counterexample: on an entry whose name is absent from the store
(fetch fails with the name-not-found error), the code does not issue an
upsert and does not return a success Outcome with the entry's name. -/
theorem not_found_claim_refuted :
    ¬((sampleParameter.update notFoundClient).puts.length = 1
      ∧ (sampleParameter.update notFoundClient).outcome = Except.ok sampleParameter.name) := by
  decide

/-- Claim C1 as amended: a fetch failure because the name does not exist is
treated like every other fetch failure — the Entry's outcome is a failure
and no upsert call is issued. -/
theorem not_found_is_failure_no_upsert (p : Parameter) (client : SsmClient) (msg : String)
    (hget : client.get_parameter p.to_get_parameter_request =
      Except.error (RusotoError.service (GetParameterError.parameterNotFound msg))) :
    (p.update client).outcome = Except.error NoneError.noneError
    ∧ (p.update client).puts = [] := by
  simp [Parameter.update, Parameter.needs_updating, hget]

/-- Witness for the amended C1 at a concrete entry and store. -/
theorem not_found_is_failure_no_upsert_witness :
    (sampleParameter.update notFoundClient).outcome = Except.error NoneError.noneError
    ∧ (sampleParameter.update notFoundClient).puts = [] :=
  not_found_is_failure_no_upsert sampleParameter notFoundClient "parameter not found" rfl

/-- Claim C2 (confirmed): when the fetch succeeds with an existing value,
an upsert is issued exactly when that value differs from the Entry's value
under exact string comparison, the outcome is a success with the Entry's
name, and the constructed upsert request always carries overwrite = true. -/
theorem existing_value_decides_upsert (p : Parameter) (client : SsmClient) (existing : String)
    (hget : client.get_parameter p.to_get_parameter_request =
      Except.ok { parameter := some { value := some existing } }) :
    ((p.update client).puts =
      if p.value = existing then [] else [p.to_put_parameter_request])
    ∧ (p.update client).outcome = Except.ok p.name
    ∧ (p.to_put_parameter_request).overwrite = some true := by
  have hover : (p.to_put_parameter_request).overwrite = some true := rfl
  by_cases h : p.value = existing
  · have hupd : p.update client =
        { outcome := Except.ok p.name
        , gets := [p.to_get_parameter_request]
        , puts := [] } := by
      simp [Parameter.update, Parameter.needs_updating, hget, h, bne_self_eq_false]
    rw [hupd]
    exact ⟨by simp [h], rfl, hover⟩
  · have hb : (p.value != existing) = true := bne_iff_ne.mpr h
    have hupd : p.update client =
        { outcome := Except.ok p.name
        , gets := [p.to_get_parameter_request]
        , puts := [p.to_put_parameter_request] } := by
      cases hput : client.put_parameter p.to_put_parameter_request <;>
        simp [Parameter.update, Parameter.needs_updating, hget, hb, hput]
    rw [hupd]
    exact ⟨by simp [h], rfl, hover⟩

/-- Witness for C2 at a concrete entry and a store already holding the
entry's value. -/
theorem existing_value_decides_upsert_witness :
    ((sampleParameter.update matchingClient).puts =
      if sampleParameter.value = "sample_value" then []
      else [sampleParameter.to_put_parameter_request])
    ∧ (sampleParameter.update matchingClient).outcome = Except.ok sampleParameter.name
    ∧ (sampleParameter.to_put_parameter_request).overwrite = some true :=
  existing_value_decides_upsert sampleParameter matchingClient "sample_value" rfl

/-- Claim C3 counterexample: on an entry whose upsert is rejected by the
store, the upsert is issued and fails, yet the recorded outcome is not a
failure. -/
theorem upsert_failure_claim_refuted :
    (rejectingClient.put_parameter sampleParameter.to_put_parameter_request).isOk = false
    ∧ (sampleParameter.update rejectingClient).puts = [sampleParameter.to_put_parameter_request]
    ∧ (sampleParameter.update rejectingClient).outcome ≠ Except.error NoneError.noneError := by
  decide

/-- Claim C3 as amended: an upsert failure is only logged — the Entry's
recorded outcome is a success carrying its name — and processing continues
to the next Entry. -/
theorem upsert_failure_still_success (p : Parameter) (client : SsmClient) (existing : String)
    (e : RusotoError PutParameterError) (rest : List Parameter)
    (hget : client.get_parameter p.to_get_parameter_request =
      Except.ok { parameter := some { value := some existing } })
    (hne : p.value ≠ existing)
    (hput : client.put_parameter p.to_put_parameter_request = Except.error e) :
    (p.update client).outcome = Except.ok p.name
    ∧ (p.update client).puts = [p.to_put_parameter_request]
    ∧ (update_parameters (p :: rest) client).outcomes =
        Except.ok p.name :: (update_parameters rest client).outcomes := by
  have hupd : p.update client =
      { outcome := Except.ok p.name
      , gets := [p.to_get_parameter_request]
      , puts := [p.to_put_parameter_request] } := by
    have hb : (p.value != existing) = true := bne_iff_ne.mpr hne
    simp [Parameter.update, Parameter.needs_updating, hget, hb, hput]
  exact ⟨by rw [hupd], by rw [hupd], by simp [update_parameters, hupd]⟩

/-- Witness for the amended C3 at a concrete entry and a rejecting store. -/
theorem upsert_failure_still_success_witness :
    (sampleParameter.update rejectingClient).outcome = Except.ok sampleParameter.name
    ∧ (sampleParameter.update rejectingClient).puts = [sampleParameter.to_put_parameter_request]
    ∧ (update_parameters (sampleParameter :: []) rejectingClient).outcomes =
        Except.ok sampleParameter.name :: (update_parameters [] rejectingClient).outcomes :=
  upsert_failure_still_success sampleParameter rejectingClient "old_value"
    (RusotoError.service (PutParameterError.internalServerError "write rejected")) []
    rfl (by decide) rfl

/-- Claim C4 (confirmed): a fetch failure other than name-not-found yields a
failure outcome for the Entry with no upsert attempted, and every other
Entry of the batch is still processed in place. -/
theorem fetch_error_failure_and_continue (p : Parameter) (client : SsmClient)
    (e : RusotoError GetParameterError) (before after : List Parameter)
    (hget : client.get_parameter p.to_get_parameter_request = Except.error e)
    (hnotnf : ∀ msg, e ≠ RusotoError.service (GetParameterError.parameterNotFound msg)) :
    (p.update client).outcome = Except.error NoneError.noneError
    ∧ (p.update client).puts = []
    ∧ (update_parameters (before ++ p :: after) client).outcomes =
        (update_parameters before client).outcomes
          ++ Except.error NoneError.noneError :: (update_parameters after client).outcomes := by
  have hout : (p.update client).outcome = Except.error NoneError.noneError
      ∧ (p.update client).puts = [] := by
    cases e <;> simp [Parameter.update, Parameter.needs_updating, hget]
  exact ⟨hout.1, hout.2, by simp [update_parameters, hout.1]⟩

/-- Witness for C4 at a concrete entry whose fetch fails with a credentials
error, in a singleton batch. -/
theorem fetch_error_failure_and_continue_witness :
    (sampleParameter.update credentialsFailClient).outcome = Except.error NoneError.noneError
    ∧ (sampleParameter.update credentialsFailClient).puts = []
    ∧ (update_parameters ([] ++ sampleParameter :: []) credentialsFailClient).outcomes =
        (update_parameters [] credentialsFailClient).outcomes
          ++ Except.error NoneError.noneError
            :: (update_parameters [] credentialsFailClient).outcomes :=
  fetch_error_failure_and_continue sampleParameter credentialsFailClient
    (RusotoError.credentials "no credentials") [] [] rfl
    (fun _ h => RusotoError.noConfusion h)

/-- Claim C9 (confirmed): a successful fetch whose response lacks the nested
parameter record or its value field makes the Entry's processing end in a
failure with no upsert attempted; it is not treated as needing an update. -/
theorem missing_response_fields_fail (p : Parameter) (client : SsmClient)
    (result : GetParameterResult)
    (hget : client.get_parameter p.to_get_parameter_request = Except.ok result)
    (hmiss : result.parameter = none
      ∨ ∃ record, result.parameter = some record ∧ record.value = none) :
    (p.update client).outcome = Except.error NoneError.noneError
    ∧ (p.update client).puts = [] := by
  rcases hmiss with h | ⟨record, hrec, hval⟩
  · simp [Parameter.update, Parameter.needs_updating, hget, h]
  · simp [Parameter.update, Parameter.needs_updating, hget, hrec, hval]

/-- Witness for C9 at a concrete entry and a store answering with an empty
response body. -/
theorem missing_response_fields_fail_witness :
    (sampleParameter.update emptyResponseClient).outcome = Except.error NoneError.noneError
    ∧ (sampleParameter.update emptyResponseClient).puts = [] :=
  missing_response_fields_fail sampleParameter emptyResponseClient
    { parameter := none } rfl (Or.inl rfl)

/-- A mapping missing any required field fails to parse. -/
theorem parse_parameter_missing_field (y : Yaml)
    (hmiss : (y.idx "name").as_str = none ∨ (y.idx "value").as_str = none
      ∨ (y.idx "description").as_str = none ∨ (y.idx "is_secure").as_bool = none) :
    ∃ e, parse_parameter y = Except.error e := by
  cases h1 : (y.idx "name").as_str with
  | none => exact ⟨"name missing", by simp [parse_parameter, h1]⟩
  | some name =>
    cases h2 : (y.idx "value").as_str with
    | none => exact ⟨"value missing", by simp [parse_parameter, h1, h2]⟩
    | some value =>
      cases h3 : (y.idx "description").as_str with
      | none => exact ⟨"description missing", by simp [parse_parameter, h1, h2, h3]⟩
      | some description =>
        cases h4 : (y.idx "is_secure").as_bool with
        | none => exact ⟨"is_secure missing", by simp [parse_parameter, h1, h2, h3, h4]⟩
        | some b => rcases hmiss with h | h | h | h <;> simp [h1, h2, h3, h4] at h

/-- If any element of the flattened input fails to parse, collecting the
whole sequence fails. -/
theorem parse_parameters_error_of_mem (l : List Yaml) (y : Yaml) (hmem : y ∈ l)
    (herr : ∃ e, parse_parameter y = Except.error e) :
    ∃ e, parse_parameters l = Except.error e := by
  induction l with
  | nil => cases hmem
  | cons a rest ih =>
    rcases List.mem_cons.mp hmem with rfl | hmem2
    · rcases herr with ⟨e, he⟩
      exact ⟨e, by simp [parse_parameters, he]⟩
    · cases ha : parse_parameter a with
      | error e => exact ⟨e, by simp [parse_parameters, ha]⟩
      | ok p =>
        rcases ih hmem2 with ⟨e, he⟩
        exact ⟨e, by simp [parse_parameters, ha, he]⟩

/-- Claim C8 (confirmed): when some mapping of the YAML input lacks a
required field, the file-based run aborts during parsing — the overall
result is an error and no store fetch or upsert is issued, nor any outcome
recorded. -/
theorem missing_field_aborts_before_store (docs : List Yaml) (client : SsmClient) (y : Yaml)
    (hmem : y ∈ List.flatten (docs.map Yaml.into_iter))
    (hmiss : (y.idx "name").as_str = none ∨ (y.idx "value").as_str = none
      ∨ (y.idx "description").as_str = none ∨ (y.idx "is_secure").as_bool = none) :
    (∃ e, (update_from_file (Except.ok docs) client).result = Except.error e)
    ∧ (update_from_file (Except.ok docs) client).gets = []
    ∧ (update_from_file (Except.ok docs) client).puts = []
    ∧ (update_from_file (Except.ok docs) client).outcomes = [] := by
  rcases parse_parameters_error_of_mem _ y hmem (parse_parameter_missing_field y hmiss)
    with ⟨e, he⟩
  refine ⟨⟨e, ?_⟩, ?_, ?_, ?_⟩ <;>
    simp [update_from_file, read_parameters_yaml, he]

/-- Witness for C8 on the spec's scenario: a single-document input whose one
mapping lacks the is_secure field. -/
theorem missing_field_aborts_before_store_witness :
    (∃ e, (update_from_file (Except.ok missingFieldDocs) matchingClient).result = Except.error e)
    ∧ (update_from_file (Except.ok missingFieldDocs) matchingClient).gets = []
    ∧ (update_from_file (Except.ok missingFieldDocs) matchingClient).puts = []
    ∧ (update_from_file (Except.ok missingFieldDocs) matchingClient).outcomes = [] :=
  missing_field_aborts_before_store missingFieldDocs matchingClient missingFieldMapping
    (by simp [missingFieldDocs, Yaml.into_iter])
    (Or.inr (Or.inr (Or.inr (by decide))))

/-- Collecting a concatenation of element sequences succeeds exactly on the
concatenation of the two collected results. -/
theorem parse_parameters_append (l1 l2 : List Yaml) (ps1 ps2 : List Parameter)
    (h1 : parse_parameters l1 = Except.ok ps1)
    (h2 : parse_parameters l2 = Except.ok ps2) :
    parse_parameters (l1 ++ l2) = Except.ok (ps1 ++ ps2) := by
  induction l1 generalizing ps1 with
  | nil =>
    simp [parse_parameters] at h1
    subst h1
    simpa using h2
  | cons a rest ih =>
    cases ha : parse_parameter a with
    | error e => simp [parse_parameters, ha] at h1
    | ok p =>
      cases hr : parse_parameters rest with
      | error e => simp [parse_parameters, ha, hr] at h1
      | ok ps =>
        simp [parse_parameters, ha, hr] at h1
        subst h1
        simp [parse_parameters, ha, ih ps hr]

/-- Claim C10 (confirmed): a multi-document input is not rejected — the
entries parsed from the documents are concatenated in document order. -/
theorem multi_doc_concatenates (docs1 docs2 : List Yaml) (ps1 ps2 : List Parameter)
    (h1 : read_parameters_yaml (Except.ok docs1) = Except.ok ps1)
    (h2 : read_parameters_yaml (Except.ok docs2) = Except.ok ps2) :
    read_parameters_yaml (Except.ok (docs1 ++ docs2)) = Except.ok (ps1 ++ ps2) := by
  simp only [read_parameters_yaml] at h1 h2 ⊢
  rw [List.map_append, List.flatten_append]
  exact parse_parameters_append _ _ _ _ h1 h2

/-- Witness for C10 on a concrete two-document input. -/
theorem multi_doc_concatenates_witness :
    read_parameters_yaml
        (Except.ok ([Yaml.array [firstDocMapping]] ++ [Yaml.array [secondDocMapping]])) =
      Except.ok
        ([Parameter.new "first_name" "first_value" "first_description" true]
          ++ [Parameter.new "second_name" "second_value" "second_description" false]) :=
  multi_doc_concatenates [Yaml.array [firstDocMapping]] [Yaml.array [secondDocMapping]]
    [Parameter.new "first_name" "first_value" "first_description" true]
    [Parameter.new "second_name" "second_value" "second_description" false]
    rfl rfl

end AwsParameterUpdate
